import Mathlib

/-
Verification development for the quick-create-event natural-language pipeline
(src/quick-create-event.tsx).  The definitions below are a shallow embedding of
the source: the five-entry regex table and minutes computation of
`parseDurationFromText` (lines 41-77), the merge in `parseNaturalLanguage`
(lines 79-87), the preview end/tier derivation in `formatPreview`
(lines 89-137), `formatDuration` (lines 139-149), and the submission path in
`onSubmit` (lines 235-321): the start/title guard, the three-tier end
computation, the request-body construction and the state updates.

JavaScript regexes are modelled by a small backtracking engine with ECMAScript
preference order (alternation left-first, greedy quantifiers longest-first,
captures threaded through the success path), restricted to the constructs the
five patterns use.  Instants (`Date.getTime()`) are integers of milliseconds
since the epoch; the UTC date portion `toISOString().split("T")[0]` is modelled
as the floor-division day number.  The external Sherlock parser is a black-box
collaborator and is passed in as a function parameter, following the spec's
interface (§6): `parse(text) -> ParsedFields`.
-/

namespace GCalNLP

/-! ## JavaScript character classes and primitives -/

/-- JS `\s` for the characters that can occur here: space, tab, LF, CR, VT, FF. -/
def jsWs (c : Char) : Bool :=
  c = ' ' || c = '\t' || c = '\n' || c = '\r' || c = '\x0b' || c = '\x0c'

/-- JS `\w` (word character): `[A-Za-z0-9_]`. -/
def isWordChar (c : Char) : Bool :=
  ('a' ≤ c && c ≤ 'z') || ('A' ≤ c && c ≤ 'Z') || ('0' ≤ c && c ≤ '9') || c = '_'

/-- JS `\d`. -/
def isDigit (c : Char) : Bool := '0' ≤ c && c ≤ '9'

def optWord : Option Char → Bool
  | none => false
  | some c => isWordChar c

def headWord : List Char → Bool
  | [] => false
  | c :: _ => isWordChar c

/-- JS `\b`: word-ness differs between the previous character and the next. -/
def isWordBoundary (prev : Option Char) (s : List Char) : Bool :=
  optWord prev != headWord s

/-! ## A backtracking regex engine for the five duration patterns -/

/-- Regex abstract syntax restricted to what the five duration patterns use.
Quantifiers are only over single character classes, which keeps the engine
structurally recursive while preserving ECMAScript backtracking order. -/
inductive RE where
  | eps
  | cls (p : Char → Bool)
  | seq (a b : RE)
  | alt (a b : RE)
  | opt (a : RE)
  | starCls (p : Char → Bool)
  | plusCls (p : Char → Bool)
  | grp (n : Nat) (a : RE)
  | wb

abbrev Caps := List (Nat × List Char)

abbrev MatchRes := Option (List Char × Caps)

abbrev Cont := Option Char → List Char → Caps → MatchRes

/-- Greedy matching of a character-class star: consume as much as possible,
backtracking one character at a time (longest-first, as in ECMAScript). -/
def starRun (p : Char → Bool) (prev : Option Char) (s : List Char)
    (k : Option Char → List Char → MatchRes) : MatchRes :=
  match s with
  | [] => k prev []
  | c :: cs =>
    if p c then
      match starRun p (some c) cs k with
      | some r => some r
      | none => k prev (c :: cs)
    else k prev (c :: cs)

/-- The backtracking matcher in continuation-passing style.  `prev` is the
character just before the current position (for `\b`), `caps` the captures
recorded on the current success path.  Alternation prefers the left branch,
`opt` prefers matching, quantifiers are greedy: ECMAScript preference order. -/
def mrun : RE → Option Char → List Char → Caps → Cont → MatchRes
  | .eps, prev, s, caps, k => k prev s caps
  | .cls p, _, s, caps, k =>
    match s with
    | [] => none
    | c :: cs => if p c then k (some c) cs caps else none
  | .seq a b, prev, s, caps, k =>
    mrun a prev s caps (fun prev2 s2 caps2 => mrun b prev2 s2 caps2 k)
  | .alt a b, prev, s, caps, k =>
    match mrun a prev s caps k with
    | some r => some r
    | none => mrun b prev s caps k
  | .opt a, prev, s, caps, k =>
    match mrun a prev s caps k with
    | some r => some r
    | none => k prev s caps
  | .starCls p, prev, s, caps, k =>
    starRun p prev s (fun prev2 s2 => k prev2 s2 caps)
  | .plusCls p, _, s, caps, k =>
    match s with
    | [] => none
    | c :: cs =>
      if p c then starRun p (some c) cs (fun prev2 s2 => k prev2 s2 caps) else none
  | .grp n a, prev, s, caps, k =>
    mrun a prev s caps (fun prev2 s2 caps2 =>
      k prev2 s2 ((n, s.take (s.length - s2.length)) :: caps2))
  | .wb, prev, s, caps, k =>
    if isWordBoundary prev s then k prev s caps else none

/-- Try to match the whole pattern starting exactly at the current position;
on success return the consumed text and the captures. -/
def matchHere (re : RE) (prev : Option Char) (s : List Char) : MatchRes :=
  mrun re prev s [] (fun _ s2 caps => some (s.take (s.length - s2.length), caps))

/-- Leftmost search, as `String.prototype.match` with a non-global regex:
try each start position from the left, first success wins. -/
def searchFrom (re : RE) (prev : Option Char) (s : List Char) : MatchRes :=
  match matchHere re prev s with
  | some r => some r
  | none =>
    match s with
    | [] => none
    | c :: cs => searchFrom re (some c) cs

/-- `input.match(re)` for a case-insensitive, non-global regex:
`match[0]` is the first component, the capture list the second. -/
def jsMatch (re : RE) (input : String) : MatchRes :=
  searchFrom re none input.data

/-- Most recent value recorded for capture group `n` (undefined if absent). -/
def findCap (n : Nat) : Caps → Option (List Char)
  | [] => none
  | (k, v) :: rest => if k = n then some v else findCap n rest

/-! ## The five duration patterns (source lines 42-48) -/

/-- Case-insensitive single character, as under the `/i` flag. -/
def litc (d : Char) : RE := .cls (fun c => c.toLower = d.toLower)

/-- Case-insensitive literal string. -/
def lits (s : String) : RE := s.data.foldr (fun c acc => .seq (litc c) acc) .eps

def seqAll (l : List RE) : RE := l.foldr .seq .eps

/-- `(?:hours?|hrs?)` -/
def hoursAlt : RE := .alt (.seq (lits "hour") (.opt (litc 's'))) (.seq (lits "hr") (.opt (litc 's')))

/-- `(?:minutes?|mins?)` -/
def minutesAlt : RE := .alt (.seq (lits "minute") (.opt (litc 's'))) (.seq (lits "min") (.opt (litc 's')))

/-- `(?:meeting|call|session|event)` -/
def eventWordsAlt : RE := .alt (lits "meeting") (.alt (lits "call") (.alt (lits "session") (lits "event")))

/-- `\d+(?:\.\d+)?` -/
def decimalNum : RE := .seq (.plusCls isDigit) (.opt (.seq (.cls (fun c => c = '.')) (.plusCls isDigit)))

/-- `/\bfor\s+(\d+(?:\.\d+)?)\s*(?:hours?|hrs?)\b/i` -/
def pat1RE : RE := seqAll [.wb, lits "for", .plusCls jsWs, .grp 1 decimalNum, .starCls jsWs, hoursAlt, .wb]

/-- `/\bfor\s+(\d+)\s*(?:minutes?|mins?)\b/i` -/
def pat2RE : RE := seqAll [.wb, lits "for", .plusCls jsWs, .grp 1 (.plusCls isDigit), .starCls jsWs, minutesAlt, .wb]

/-- `/\bfor\s+(\d+)(?::(\d+)|h(?:\s*(\d+)m?)?)\b/i` -/
def pat3RE : RE := seqAll [.wb, lits "for", .plusCls jsWs, .grp 1 (.plusCls isDigit),
  .alt (.seq (.cls (fun c => c = ':')) (.grp 2 (.plusCls isDigit)))
       (.seq (litc 'h') (.opt (seqAll [.starCls jsWs, .grp 3 (.plusCls isDigit), .opt (litc 'm')]))),
  .wb]

/-- `/\b(\d+(?:\.\d+)?)\s*(?:hours?|hrs?)\s+(?:meeting|call|session|event)\b/i` -/
def pat4RE : RE := seqAll [.wb, .grp 1 decimalNum, .starCls jsWs, hoursAlt, .plusCls jsWs, eventWordsAlt, .wb]

/-- `/\b(\d+)\s*(?:minutes?|mins?)\s+(?:meeting|call|session|event)\b/i` -/
def pat5RE : RE := seqAll [.wb, .grp 1 (.plusCls isDigit), .starCls jsWs, minutesAlt, .plusCls jsWs, eventWordsAlt, .wb]

/-- A table entry: the regex together with its `.source` text, which the
minutes computation inspects via `pattern.source.includes(...)`. -/
structure DurPattern where
  src : String
  re : RE

def pat1 : DurPattern := ⟨"\\bfor\\s+(\\d+(?:\\.\\d+)?)\\s*(?:hours?|hrs?)\\b", pat1RE⟩

def pat2 : DurPattern := ⟨"\\bfor\\s+(\\d+)\\s*(?:minutes?|mins?)\\b", pat2RE⟩

def pat3 : DurPattern := ⟨"\\bfor\\s+(\\d+)(?::(\\d+)|h(?:\\s*(\\d+)m?)?)\\b", pat3RE⟩

def pat4 : DurPattern := ⟨"\\b(\\d+(?:\\.\\d+)?)\\s*(?:hours?|hrs?)\\s+(?:meeting|call|session|event)\\b", pat4RE⟩

def pat5 : DurPattern := ⟨"\\b(\\d+)\\s*(?:minutes?|mins?)\\s+(?:meeting|call|session|event)\\b", pat5RE⟩

/-- `durationPatterns` (source lines 42-48), in order. -/
def durationPatterns : List DurPattern := [pat1, pat2, pat3, pat4, pat5]

/-! ## String helpers used by the extraction -/

def leadsWith : List Char → List Char → Bool
  | [], _ => true
  | _ :: _, [] => false
  | p :: ps, c :: cs => p = c && leadsWith ps cs

/-- `hay` contains `needle` as a contiguous substring (`String.prototype.includes`). -/
def containsSub (needle : List Char) : List Char → Bool
  | [] => leadsWith needle []
  | c :: cs => leadsWith needle (c :: cs) || containsSub needle cs

def strContains (hay needle : String) : Bool := containsSub needle.data hay.data

def digitsToNat (l : List Char) : Nat :=
  l.foldl (fun acc c => acc * 10 + (c.toNat - '0'.toNat)) 0

/-- `parseInt(s, 10)` on an all-digit capture. -/
def parseIntDigits (s : String) : Nat := digitsToNat s.data

/-- `Math.round(parseFloat(s) * 60)` for a capture of shape `\d+(\.\d+)?`,
computed exactly: with integer part `a` and `k` fractional digits `b`, the
value is `(a*10^k + b)/10^k`, and round-half-up of `x` is `⌊x + 1/2⌋`. -/
def roundTimes60 (s : String) : Nat :=
  let ip := s.data.takeWhile (fun c => c ≠ '.')
  let fp := (s.data.dropWhile (fun c => c ≠ '.')).drop 1
  let d := 10 ^ fp.length
  let n := digitsToNat ip * d + digitsToNat fp
  (2 * (n * 60) + d) / (2 * d)

/-- First maximal whitespace run becomes a single space, etc.:
`.replace(/\s+/g, " ")`.  The flag records whether we are inside a run. -/
def collapseWsAux : Bool → List Char → List Char
  | _, [] => []
  | inRun, c :: cs =>
    if jsWs c then
      if inRun then collapseWsAux true cs else ' ' :: collapseWsAux true cs
    else c :: collapseWsAux false cs

def collapseWs (l : List Char) : List Char := collapseWsAux false l

def dropWsLeft : List Char → List Char
  | [] => []
  | c :: cs => if jsWs c then dropWsLeft cs else c :: cs

/-- `.trim()`: strip leading and trailing whitespace. -/
def jsTrim (l : List Char) : List Char := (dropWsLeft (dropWsLeft l).reverse).reverse

/-- `input.replace(pat, "")` with a string pattern: remove the first literal
occurrence of `pat` (unchanged when `pat` does not occur). -/
def removeFirst (pat : List Char) : List Char → List Char
  | [] => []
  | c :: cs => if leadsWith pat (c :: cs) then (c :: cs).drop pat.length else c :: removeFirst pat cs

/-- `input.replace(match[0], "").replace(/\s+/g, " ").trim()` (source line 70). -/
def cleanInput (input : String) (m0 : List Char) : String :=
  ⟨jsTrim (collapseWs (removeFirst m0 input.data))⟩

/-! ## parseDurationFromText (source lines 41-77) -/

structure DurationExtraction where
  durationMinutes : Option Nat
  cleanedInput : String
deriving DecidableEq

/-- The minutes computation of source lines 53-67, branching on
`pattern.source.includes("hour")/("hr")/("minute")/("min")` and on the
presence of `match[2]`/`match[3]`. -/
def computeMinutes (src : String) (g1 : String) (g2 g3 : Option String) : Nat :=
  if strContains src "hour" || strContains src "hr" then
    let base := roundTimes60 g1
    match g2 with
    | some m2 => base + parseIntDigits m2
    | none =>
      match g3 with
      | some m3 => base + parseIntDigits m3
      | none => base
  else if strContains src "minute" || strContains src "min" then
    parseIntDigits g1
  else
    match g2 with
    | some m2 => parseIntDigits g1 * 60 + parseIntDigits m2
    | none => 0

/-- One iteration of the pattern loop (source lines 50-73): on a match compute
minutes; only a strictly positive count yields a result, otherwise the loop
continues with the next pattern. -/
def tryPattern (p : DurPattern) (input : String) : Option DurationExtraction :=
  match jsMatch p.re input with
  | none => none
  | some (m0, caps) =>
    let g1 : String := ⟨(findCap 1 caps).getD []⟩
    let minutes := computeMinutes p.src g1
      ((findCap 2 caps).map (fun l => (⟨l⟩ : String)))
      ((findCap 3 caps).map (fun l => (⟨l⟩ : String)))
    if 0 < minutes then some ⟨some minutes, cleanInput input m0⟩ else none

def firstPatternResult : List DurPattern → String → DurationExtraction
  | [], input => ⟨none, input⟩
  | p :: ps, input =>
    match tryPattern p input with
    | some r => r
    | none => firstPatternResult ps input

/-- `parseDurationFromText` (source lines 41-77). -/
def parseDurationFromText (input : String) : DurationExtraction :=
  firstPatternResult durationPatterns input

/-! ## Event resolution (source lines 30-39 and 79-87)

`Date` values are instants: integer milliseconds since the epoch
(`Date.getTime()`).  A `Date` object is always truthy, so the `!x` tests on
dates are exactly `Option.isNone`; a string is falsy exactly when it is
empty or absent. -/

/-- `SherlockResult` (source lines 30-35): the external parser's output. -/
structure SherlockResult where
  eventTitle : Option String
  startDate : Option Int
  endDate : Option Int
  isAllDay : Bool
deriving DecidableEq

/-- `ParsedEvent` (source lines 37-39). -/
structure ParsedEvent extends SherlockResult where
  durationMinutes : Option Nat
deriving DecidableEq

/-- `parseNaturalLanguage` (source lines 79-87).  `Sherlock.parse` is the
black-box title/date collaborator and is passed in as a function. -/
def parseNaturalLanguage (sherlockParse : String → SherlockResult) (input : String) : ParsedEvent :=
  let d := parseDurationFromText input
  { toSherlockResult := sherlockParse d.cleanedInput, durationMinutes := d.durationMinutes }

/-- JS truthiness of `x` for `x : number | null` (`null` and `0` are falsy). -/
def numTruthy : Option Nat → Bool
  | none => false
  | some n => n != 0

/-- JS truthiness of `x` for `x : string | null` (`null` and `""` are falsy). -/
def strTruthy : Option String → Bool
  | none => false
  | some s => s != ""

/-! ## The configured default duration (source lines 120 and 258)

`preferences.defaultEventDuration` goes through `Number(...)`, whose result is
either NaN or a numeric value; `Number(v) || 30` then yields 30 exactly when
the coercion is NaN or (-)0.  The preview and the submission path each contain
their own copy of this expression; both are transcribed. -/

inductive JSNum where
  | nan
  | num (v : Int)
deriving DecidableEq

/-- `Number(preferences.defaultEventDuration) || 30` as written in
`formatPreview` (source line 120). -/
def previewDefaultDuration (pref : JSNum) : Int :=
  match pref with
  | .nan => 30
  | .num v => if v = 0 then 30 else v

/-- `Number(preferences.defaultEventDuration) || 30` as written in
`onSubmit` (source line 258). -/
def submitDefaultDuration (pref : JSNum) : Int :=
  match pref with
  | .nan => 30
  | .num v => if v = 0 then 30 else v

/-! ## Preview end derivation (source lines 89-149) -/

/-- Which of the three fallback tiers supplied the effective end. -/
inductive EndTier where
  | explicitEnd
  | fromDuration
  | fromDefault
deriving DecidableEq

/-- `formatDuration` (source lines 139-149). -/
def formatDuration (minutes : Nat) : String :=
  if minutes < 60 then toString minutes ++ "min"
  else
    let hours := minutes / 60
    let mins := minutes % 60
    if mins = 0 then toString hours ++ "h"
    else toString hours ++ "h " ++ toString mins ++ "m"

/-- The end-date/annotation branch of `formatPreview` (source lines 108-130):
`none` when no start was detected (placeholder text, line 90-92) or for the
all-day branch (line 108-109, which renders no end time); otherwise the
effective end instant, the tier that supplied it, and the `durationNote`
annotation string of that branch (`""` for an explicit end). -/
def formatPreviewEnd (parsed : ParsedEvent) (pref : JSNum) : Option (Int × EndTier × String) :=
  match parsed.startDate with
  | none => none
  | some startDate =>
    if parsed.isAllDay then none
    else
      match parsed.endDate with
      | some e => some (e, .explicitEnd, "")
      | none =>
        if numTruthy parsed.durationMinutes then
          some (startDate + ((parsed.durationMinutes.getD 0 : Nat) : Int) * 60 * 1000,
            .fromDuration,
            " (" ++ formatDuration (parsed.durationMinutes.getD 0) ++ ")")
        else
          some (startDate + previewDefaultDuration pref * 60 * 1000,
            .fromDefault,
            " (" ++ toString (previewDefaultDuration pref) ++ "min default)")

/-! ## Submission path (source lines 235-321) -/

/-- The `endDate` computation of `onSubmit` (source lines 252-260). -/
def submitEndDate (result : ParsedEvent) (startDate : Int) (pref : JSNum) : Int :=
  match result.endDate with
  | some e => e
  | none =>
    if numTruthy result.durationMinutes then
      startDate + ((result.durationMinutes.getD 0 : Nat) : Int) * 60 * 1000
    else
      startDate + submitDefaultDuration pref * 60 * 1000

/-- The tier taken by the branches of source lines 252-260. -/
def submitEndTier (result : ParsedEvent) : EndTier :=
  match result.endDate with
  | some _ => .explicitEnd
  | none => if numTruthy result.durationMinutes then .fromDuration else .fromDefault

/-- The value the submission path produces for the calendar-write collaborator
once its guard has passed: start and end instants plus the all-day flag
(the spec's `materialize` output shape). -/
structure MaterializedEvent where
  start : Int
  endTime : Int
  allDay : Bool
deriving DecidableEq

/-- The guard and time computation of `onSubmit` (source lines 238-260):
`if (!result.startDate || !result.eventTitle) { ...; return; }` — a `Date` is
always truthy, a title is truthy when nonempty — then the three-branch end
computation.  `none` models the early return (no event body is built, nothing
is thrown). -/
def materialize (result : ParsedEvent) (pref : JSNum) : Option MaterializedEvent :=
  match result.startDate with
  | none => none
  | some startDate =>
    if strTruthy result.eventTitle then
      some ⟨startDate, submitEndDate result startDate pref, result.isAllDay⟩
    else none

/-- The UTC calendar date of an instant, `toISOString().split("T")[0]`,
modelled as the floor day number since the epoch (two instants render the same
date string exactly when their day numbers agree). -/
def isoDayOf (t : Int) : Int := t.fdiv 86400000

/-- `requestBody` (source lines 262-276), restricted to the fields the core
computes: summary, start/end (date-only for all-day events, instants
otherwise) and the attendee passthrough.  `description` is
`addSignature(undefined)`, an external collaborator's constant, and is
omitted. -/
inductive RequestBody where
  | allDayBody (summary : String) (startDay endDay : Int) (attendees : List String)
  | timedBody (summary : String) (startMs endMs : Int) (attendees : List String)
deriving DecidableEq

def buildRequestBody (result : ParsedEvent) (startDate endDate : Int)
    (selectedGuests : List String) : RequestBody :=
  if result.isAllDay then
    .allDayBody (result.eventTitle.getD "") (isoDayOf startDate) (isoDayOf endDate) selectedGuests
  else
    .timedBody (result.eventTitle.getD "") startDate endDate selectedGuests

/-! ## Caller state around onSubmit (source lines 167-321) -/

/-- The pieces of component state `onSubmit` touches: `inputValue`,
`guestSearch`, `selectedGuests` and `parsed`. -/
structure UIState where
  inputValue : String
  guestSearch : String
  selectedGuests : List String
  parsed : ParsedEvent
deriving DecidableEq

/-- The reset value `{ eventTitle: null, startDate: null, endDate: null,
isAllDay: false, durationMinutes: null }` (source lines 218 and 288). -/
def emptyParsed : ParsedEvent := ⟨⟨none, none, none, false⟩, none⟩

/-- Outcome of the awaited `calendar.events.insert` call: resolves, or rejects
with a provider error caught by the `catch` block. -/
inductive InsertOutcome where
  | ok
  | insertError
deriving DecidableEq

/-- The state effect of `onSubmit` (source lines 235-321): the guard's early
return leaves the state untouched; after a successful insert the four state
setters clear input, guest search, guest selection and parse (lines 285-288);
the `catch` branch (lines 318-320) only shows a failure toast and changes no
state.  Toasts and the insert call itself are external collaborators,
abstracted into `outcome`. -/
def onSubmitStep (sherlockParse : String → SherlockResult)
    (state : UIState) (inputVal : String) (outcome : InsertOutcome) : UIState :=
  match (parseNaturalLanguage sherlockParse inputVal).startDate with
  | none => state
  | some _ =>
    if strTruthy (parseNaturalLanguage sherlockParse inputVal).eventTitle then
      match outcome with
      | .ok => { inputValue := "", guestSearch := "", selectedGuests := [], parsed := emptyParsed }
      | .insertError => state
    else state

/-! ## The spec's three-tier effective end, for refinement comparison -/

/-- The three-tier resolution priority written from the spec's words (§3
EffectiveEnd): "(1) ParsedFields.end if present → (2) start + durationMinutes
if durationMinutes present → (3) start + configured default duration". -/
def specEffectiveEnd (endOpt : Option Int) (durOpt : Option Nat) (start : Int)
    (defaultMinutes : Int) : Int :=
  match endOpt with
  | some e => e
  | none =>
    match durOpt with
    | some d => start + (d : Int) * 60 * 1000
    | none => start + defaultMinutes * 60 * 1000

/-! ## Helper lemmas -/

theorem removeFirst_length_le (pat : List Char) : ∀ l : List Char,
    (removeFirst pat l).length ≤ l.length := by
  intro l
  induction l with
  | nil => simp [removeFirst]
  | cons c cs ih =>
    unfold removeFirst
    split
    · rw [List.length_drop]
      exact Nat.sub_le _ _
    · simpa using ih

theorem collapseWsAux_length_le : ∀ (l : List Char) (b : Bool),
    (collapseWsAux b l).length ≤ l.length := by
  intro l
  induction l with
  | nil => intro b; simp [collapseWsAux]
  | cons c cs ih =>
    intro b
    unfold collapseWsAux
    split
    · split
      · exact Nat.le_succ_of_le (ih true)
      · simpa using ih true
    · simpa using ih false

theorem dropWsLeft_length_le : ∀ l : List Char, (dropWsLeft l).length ≤ l.length := by
  intro l
  induction l with
  | nil => simp [dropWsLeft]
  | cons c cs ih =>
    unfold dropWsLeft
    split
    · exact Nat.le_succ_of_le ih
    · simp

theorem jsTrim_length_le (l : List Char) : (jsTrim l).length ≤ l.length := by
  unfold jsTrim
  calc (dropWsLeft (dropWsLeft l).reverse).reverse.length
      = (dropWsLeft (dropWsLeft l).reverse).length := List.length_reverse _
    _ ≤ (dropWsLeft l).reverse.length := dropWsLeft_length_le _
    _ = (dropWsLeft l).length := List.length_reverse _
    _ ≤ l.length := dropWsLeft_length_le l

theorem cleanInput_length_le (input : String) (m0 : List Char) :
    (cleanInput input m0).length ≤ input.length := by
  show (jsTrim (collapseWs (removeFirst m0 input.data))).length ≤ input.data.length
  calc (jsTrim (collapseWs (removeFirst m0 input.data))).length
      ≤ (collapseWs (removeFirst m0 input.data)).length := jsTrim_length_le _
    _ ≤ (removeFirst m0 input.data).length := collapseWsAux_length_le _ _
    _ ≤ input.data.length := removeFirst_length_le _ _

theorem tryPattern_result {p : DurPattern} {input : String} {r : DurationExtraction}
    (h : tryPattern p input = some r) :
    (∃ m, r.durationMinutes = some m ∧ 0 < m) ∧ r.cleanedInput.length ≤ input.length := by
  unfold tryPattern at h
  split at h
  · cases h
  · next m0 caps heq =>
    dsimp only at h
    split at h
    · next hpos =>
      cases h
      exact ⟨⟨_, rfl, hpos⟩, cleanInput_length_le input m0⟩
    · cases h

theorem firstPatternResult_dur_pos {ps : List DurPattern} {input : String} {m : Nat}
    (h : (firstPatternResult ps input).durationMinutes = some m) : 0 < m := by
  induction ps with
  | nil => simp [firstPatternResult] at h
  | cons p ps ih =>
    unfold firstPatternResult at h
    split at h
    · next r heq =>
      obtain ⟨⟨m', hm', hpos⟩, -⟩ := tryPattern_result heq
      rw [hm'] at h
      cases h
      exact hpos
    · exact ih h

theorem firstPatternResult_length_le (ps : List DurPattern) (input : String) :
    (firstPatternResult ps input).cleanedInput.length ≤ input.length := by
  induction ps with
  | nil => simp [firstPatternResult]
  | cons p ps ih =>
    unfold firstPatternResult
    split
    · next r heq => exact (tryPattern_result heq).2
    · exact ih

theorem firstPatternResult_none_id {ps : List DurPattern} {input : String}
    (h : (firstPatternResult ps input).durationMinutes = none) :
    firstPatternResult ps input = ⟨none, input⟩ := by
  induction ps with
  | nil => rfl
  | cons p ps ih =>
    unfold firstPatternResult at h ⊢
    split at h
    · next r heq =>
      obtain ⟨⟨m', hm', -⟩, -⟩ := tryPattern_result heq
      rw [hm'] at h
      cases h
    · exact ih h

theorem parseDurationFromText_dur_pos {input : String} {m : Nat}
    (h : (parseDurationFromText input).durationMinutes = some m) : 0 < m :=
  firstPatternResult_dur_pos h

theorem parseNaturalLanguage_durationMinutes (f : String → SherlockResult) (input : String) :
    (parseNaturalLanguage f input).durationMinutes = (parseDurationFromText input).durationMinutes := rfl

/-! ## Claim C1: three-tier end resolution in the submission path -/

/-- Counterexample to claim C1 as stated.  The resolver can return an event
whose title is present but empty (`eventTitle: ""` is a `string`, hence
"present" in the spec's `string|absent` data model), and for such an event the
submission path computes no end at all: `!result.eventTitle` is true for the
empty string, so `onSubmit` returns before the end computation.  Here the event
has a present start, a present (empty) title and an explicit parsed end, yet
`materialize` produces nothing. -/
theorem c1_counterexample :
    (parseNaturalLanguage (fun _ => ⟨some "", some 0, some 3600000, false⟩) "standup").startDate
        = some 0 ∧
    (parseNaturalLanguage (fun _ => ⟨some "", some 0, some 3600000, false⟩) "standup").eventTitle
        = some "" ∧
    materialize (parseNaturalLanguage (fun _ => ⟨some "", some 0, some 3600000, false⟩) "standup")
        (.num 45) = none ∧
    materialize (parseNaturalLanguage (fun _ => ⟨some "", some 0, some 3600000, false⟩) "standup")
        (.num 45) ≠ some ⟨0, 3600000, false⟩ := by
  decide

/-- Claim C1 (amended): for every resolver output with a present start and a
present nonempty title, the submission path produces a result whose end is
exactly the spec's three-tier priority — parsed explicit end; else start plus
durationMinutes when present (the extractor only ever yields positive counts);
else start plus the configured default duration. -/
theorem c1_amended (sherlockParse : String → SherlockResult) (input : String) (pref : JSNum)
    (s : Int) (t : String)
    (hs : (parseNaturalLanguage sherlockParse input).startDate = some s)
    (ht : (parseNaturalLanguage sherlockParse input).eventTitle = some t)
    (hne : t ≠ "") :
    materialize (parseNaturalLanguage sherlockParse input) pref =
      some ⟨s,
        specEffectiveEnd (parseNaturalLanguage sherlockParse input).endDate
          (parseNaturalLanguage sherlockParse input).durationMinutes s
          (submitDefaultDuration pref),
        (parseNaturalLanguage sherlockParse input).isAllDay⟩ := by
  have hsub : submitEndDate (parseNaturalLanguage sherlockParse input) s pref =
      specEffectiveEnd (parseNaturalLanguage sherlockParse input).endDate
        (parseNaturalLanguage sherlockParse input).durationMinutes s
        (submitDefaultDuration pref) := by
    unfold submitEndDate specEffectiveEnd
    cases hend : (parseNaturalLanguage sherlockParse input).endDate with
    | some e => rfl
    | none =>
      cases hdur : (parseNaturalLanguage sherlockParse input).durationMinutes with
      | none => simp [numTruthy]
      | some d =>
        have hd : 0 < d := parseDurationFromText_dur_pos
          (by rw [← parseNaturalLanguage_durationMinutes sherlockParse input]; exact hdur)
        have hdne : (d != 0) = true := by simpa using Nat.pos_iff_ne_zero.mp hd
        simp [numTruthy, hdne]
  unfold materialize
  rw [hs, ht]
  simp [strTruthy, hne, hsub]

/-- Witness for C1 (amended) at a concrete resolver run: input
"sync for 45 minutes" with a stubbed collaborator producing title "Sync" and
start 1000; tier 2 applies with the extracted 45 minutes. -/
theorem c1_amended_witness :
    materialize
        (parseNaturalLanguage (fun _ => ⟨some "Sync", some 1000, none, false⟩)
          "sync for 45 minutes") (.num 0) =
      some ⟨1000,
        specEffectiveEnd
          (parseNaturalLanguage (fun _ => ⟨some "Sync", some 1000, none, false⟩)
            "sync for 45 minutes").endDate
          (parseNaturalLanguage (fun _ => ⟨some "Sync", some 1000, none, false⟩)
            "sync for 45 minutes").durationMinutes 1000
          (submitDefaultDuration (.num 0)),
        (parseNaturalLanguage (fun _ => ⟨some "Sync", some 1000, none, false⟩)
          "sync for 45 minutes").isAllDay⟩ :=
  c1_amended _ _ _ 1000 "Sync" (by decide) (by decide) (by decide)

/-! ## Claim C2: preview and submission agree on tier and end -/

/-- Claim C2: for every resolved event with a present start and `isAllDay`
false, the preview's end instant and tier annotation (computed in
`formatPreview`, lines 111-123) coincide with the end instant and branch the
submission path computes (lines 252-260).  Both sites test the same
truthiness conditions in the same order and apply the same arithmetic. -/
theorem c2_preview_submission_agree (parsed : ParsedEvent) (pref : JSNum) (s : Int)
    (hs : parsed.startDate = some s) (hday : parsed.isAllDay = false) :
    (formatPreviewEnd parsed pref).map (fun r => (r.1, r.2.1)) =
      some (submitEndDate parsed s pref, submitEndTier parsed) := by
  have hdefault : previewDefaultDuration pref = submitDefaultDuration pref := by
    cases pref <;> rfl
  unfold formatPreviewEnd submitEndDate submitEndTier
  rw [hs, hday]
  cases hend : parsed.endDate with
  | some e => rfl
  | none =>
    cases hnt : numTruthy parsed.durationMinutes with
    | true => simp
    | false => simp [hdefault]

/-- Witness for C2 at a concrete event: start 0, no explicit end, extracted
duration of 60 minutes; preview and submission both pick tier 2 with end
3600000. -/
theorem c2_witness :
    (formatPreviewEnd (⟨⟨some "t", some 0, none, false⟩, some 60⟩ : ParsedEvent) .nan).map
        (fun r => (r.1, r.2.1)) =
      some (submitEndDate (⟨⟨some "t", some 0, none, false⟩, some 60⟩ : ParsedEvent) 0 .nan,
        submitEndTier (⟨⟨some "t", some 0, none, false⟩, some 60⟩ : ParsedEvent)) :=
  c2_preview_submission_agree _ .nan 0 rfl rfl

/-! ## Claim C3: first-match-wins rule ordering -/

/-- Counterexample to claim C3 as stated: the input below contains both the
phrase "for 2 hours" and the phrase "for 90 minutes", yet the result is 150,
not 120 — rule 1's leftmost match is "for 2.5 hours", not "for 2 hours". -/
theorem c3_counterexample :
    strContains "for 2.5 hours for 2 hours for 90 minutes" "for 2 hours" = true ∧
    strContains "for 2.5 hours for 2 hours for 90 minutes" "for 90 minutes" = true ∧
    (parseDurationFromText "for 2.5 hours for 2 hours for 90 minutes").durationMinutes
      = some 150 ∧
    (parseDurationFromText "for 2.5 hours for 2 hours for 90 minutes").durationMinutes
      ≠ some 120 := by
  decide

/-- Claim C3 (amended): whenever rule 1 produces a (positive) match, it wins
outright — the remaining four rules are never consulted; and on an input where
rule 1's leftmost match is the phrase "for 2 hours" while "for 90 minutes"
is also present, the result is 120, not rule 2's 90. -/
theorem c3_amended :
    (∀ (input : String) (r : DurationExtraction),
      tryPattern pat1 input = some r → parseDurationFromText input = r) ∧
    (parseDurationFromText "meeting for 2 hours for 90 minutes").durationMinutes = some 120 := by
  constructor
  · intro input r h
    unfold parseDurationFromText durationPatterns firstPatternResult
    rw [h]
  · decide

/-- Witness for C3 (amended): rule 1 matches "for 2 hours" in
"call for 2 hours"; the overall extraction returns exactly that rule's
result. -/
theorem c3_amended_witness :
    parseDurationFromText "call for 2 hours" = ⟨some 120, "call"⟩ :=
  c3_amended.1 "call for 2 hours" ⟨some 120, "call"⟩ (by decide)

/-! ## Claim C4: the creation precondition -/

/-- Counterexample to claim C4 as stated: an event whose start and title are
both present ("" is a present string under the spec's `string|absent` model)
on which the guard still rejects, because JavaScript's `!result.eventTitle`
is true for the empty string. -/
theorem c4_counterexample :
    (⟨⟨some "", some 5, none, false⟩, none⟩ : ParsedEvent).startDate ≠ none ∧
    (⟨⟨some "", some 5, none, false⟩, none⟩ : ParsedEvent).eventTitle ≠ none ∧
    materialize (⟨⟨some "", some 5, none, false⟩, none⟩ : ParsedEvent) .nan = none := by
  decide

/-- Claim C4 (amended): `materialize` returns no result exactly when the start
is absent or the title is absent or empty (the guard's truthiness test); it
never throws and builds no event value in that case, and whenever the start is
present and the title truthy it produces the `{start, end, allDay}` value. -/
theorem c4_amended (result : ParsedEvent) (pref : JSNum) :
    (materialize result pref = none ↔
      result.startDate = none ∨ result.eventTitle = none ∨ result.eventTitle = some "") ∧
    (∀ s : Int, result.startDate = some s → strTruthy result.eventTitle = true →
      materialize result pref = some ⟨s, submitEndDate result s pref, result.isAllDay⟩) := by
  constructor
  · unfold materialize
    cases hst : result.startDate with
    | none => simp
    | some s =>
      cases ht : result.eventTitle with
      | none => simp [strTruthy]
      | some t =>
        by_cases hte : t = ""
        · subst hte; simp [strTruthy]
        · simp [strTruthy, hte]
  · intro s hs htr
    unfold materialize
    rw [hs, htr]
    simp

/-- Witness for C4 (amended): a concrete event with present start and nonempty
title materializes to the expected value. -/
theorem c4_amended_witness :
    materialize (⟨⟨some "Lunch", some 42, none, true⟩, none⟩ : ParsedEvent) .nan =
      some ⟨42, submitEndDate (⟨⟨some "Lunch", some 42, none, true⟩, none⟩ : ParsedEvent) 42 .nan,
        true⟩ :=
  (c4_amended _ _).2 42 (by decide) (by decide)

/-! ## Claim C5: rule 3 of the duration extractor -/

/-- Claim C5 evaluation, exhibiting the code bug.  The colon form behaves as
the spec's rule 3 says ("for 1:30" → 90), but the `h`/`m` forms produce no
duration at all: rule 3's regex matches "for 2h 30m" and "for 2h" and captures
the groups, but the minutes computation only reads `match[2]`/`match[3]`
inside the branch reserved for patterns whose source contains "hour"/"hr",
which rule 3's source does not, so `minutes` stays 0 and the match is
discarded as "no match". -/
theorem c5_rule3_evaluation :
    (parseDurationFromText "call for 2h 30m").durationMinutes = none ∧
    (parseDurationFromText "call for 2h").durationMinutes = none ∧
    parseDurationFromText "call for 1:30" = ⟨some 90, "call"⟩ := by
  decide

/-! ## Claim C6: idempotence after stripping -/

/-- Counterexample to claim C6 as stated.  Stripping uses
`input.replace(match[0], "")`, which removes the first *literal* occurrence of
the matched text, not the occurrence the regex matched.  In
"xfor 2 hours for 2 hours" the regex matches the second, word-delimited
"for 2 hours", but `replace` deletes the text inside "xfor 2 hours", leaving
"x for 2 hours" — on which a second extraction matches again and yields 120
instead of the claimed absent duration. -/
theorem c6_counterexample :
    parseDurationFromText "xfor 2 hours for 2 hours" = ⟨some 120, "x for 2 hours"⟩ ∧
    (parseDurationFromText
      ((parseDurationFromText "xfor 2 hours for 2 hours").cleanedInput)).durationMinutes
      = some 120 ∧
    (parseDurationFromText
      ((parseDurationFromText "xfor 2 hours for 2 hours").cleanedInput)).durationMinutes
      ≠ none := by
  decide

/-- Claim C6 (amended): when the extraction finds no duration, the text is
returned unchanged and re-running the extraction again finds none (this is the
unconditional part of the idempotence claim); after a successful strip,
re-extraction yields an absent duration for inputs whose matched text does not
also occur earlier in the string — as in "Standup tomorrow for 2 hours" — but
not in general (see the counterexample). -/
theorem c6_amended :
    (∀ t : String, (parseDurationFromText t).durationMinutes = none →
      (parseDurationFromText t).cleanedInput = t ∧
      (parseDurationFromText ((parseDurationFromText t).cleanedInput)).durationMinutes = none) ∧
    (parseDurationFromText
      ((parseDurationFromText "Standup tomorrow for 2 hours").cleanedInput)).durationMinutes
      = none := by
  constructor
  · intro t h
    have hid : parseDurationFromText t = ⟨none, t⟩ := firstPatternResult_none_id h
    refine ⟨by rw [hid], ?_⟩
    rw [hid]
    exact h
  · decide

/-- Witness for C6 (amended) at an input with no duration phrase: extraction
leaves "team lunch" unchanged and a second run still finds nothing. -/
theorem c6_amended_witness :
    (parseDurationFromText "team lunch").cleanedInput = "team lunch" ∧
    (parseDurationFromText ((parseDurationFromText "team lunch").cleanedInput)).durationMinutes
      = none :=
  c6_amended.1 "team lunch" (by decide)

/-! ## Claim C7: extraction result invariants -/

/-- Claim C7: every extraction result satisfies the DurationExtraction
invariants — a present `durationMinutes` is strictly positive (a match whose
computed minutes are ≤ 0 is treated as no match and the loop continues), and
the cleaned text is never longer than the input. -/
theorem c7_extraction_invariants (t : String) :
    (∀ m, (parseDurationFromText t).durationMinutes = some m → 0 < m) ∧
    (parseDurationFromText t).cleanedInput.length ≤ t.length :=
  ⟨fun _ h => parseDurationFromText_dur_pos h, firstPatternResult_length_le _ _⟩

/-- Witness for C7 at "call for 45 minutes": the extracted 45 is positive and
the cleaned text "call" is shorter than the input. -/
theorem c7_witness :
    0 < 45 ∧
    (parseDurationFromText "call for 45 minutes").cleanedInput.length ≤
      ("call for 45 minutes" : String).length :=
  ⟨(c7_extraction_invariants "call for 45 minutes").1 45 (by decide),
   (c7_extraction_invariants "call for 45 minutes").2⟩

/-! ## Claim C8: all-day events -/

/-- Counterexample to claim C8 as stated: the all-day end *date* is not
unaffected by `durationMinutes`.  The end instant is still computed through
the tier resolution before being truncated to its UTC date, so a duration that
pushes the end past UTC midnight changes the submitted end date.  Two events
identical except for `durationMinutes` (start 23:00 UTC on epoch day 0;
duration 120 min vs none with the 30-min default) yield end dates on day 1 and
day 0 respectively. -/
theorem c8_counterexample :
    (materialize (⟨⟨some "party", some 82800000, none, true⟩, some 120⟩ : ParsedEvent) .nan).map
        (fun m => isoDayOf m.endTime) = some 1 ∧
    (materialize (⟨⟨some "party", some 82800000, none, true⟩, none⟩ : ParsedEvent) .nan).map
        (fun m => isoDayOf m.endTime) = some 0 ∧
    (materialize (⟨⟨some "party", some 82800000, none, true⟩, some 120⟩ : ParsedEvent) .nan).map
        (fun m => isoDayOf m.endTime) ≠
      (materialize (⟨⟨some "party", some 82800000, none, true⟩, none⟩ : ParsedEvent) .nan).map
        (fun m => isoDayOf m.endTime) := by
  decide

/-- Claim C8 (amended): for every event with `isAllDay` true, a present start
and a nonempty title, the materialized value passes `allDay = true` through,
and the request body is the all-day body carrying only the *date portions* of
the start and of the tier-resolved end — no time of day is submitted; the
end's date portion, however, is still derived from the tier resolution and can
shift with `durationMinutes` across a UTC day boundary. -/
theorem c8_amended (result : ParsedEvent) (pref : JSNum) (s : Int) (t : String)
    (guests : List String)
    (hs : result.startDate = some s) (ht : result.eventTitle = some t) (hne : t ≠ "")
    (hday : result.isAllDay = true) :
    materialize result pref = some ⟨s, submitEndDate result s pref, true⟩ ∧
    buildRequestBody result s (submitEndDate result s pref) guests =
      .allDayBody t (isoDayOf s) (isoDayOf (submitEndDate result s pref)) guests := by
  constructor
  · unfold materialize
    rw [hs, ht]
    simp [strTruthy, hne, hday]
  · unfold buildRequestBody
    rw [hday, ht]
    simp

/-- Witness for C8 (amended) at a concrete all-day event. -/
theorem c8_amended_witness :
    materialize (⟨⟨some "offsite", some 82800000, none, true⟩, some 120⟩ : ParsedEvent) .nan =
      some ⟨82800000,
        submitEndDate (⟨⟨some "offsite", some 82800000, none, true⟩, some 120⟩ : ParsedEvent)
          82800000 .nan, true⟩ ∧
    buildRequestBody (⟨⟨some "offsite", some 82800000, none, true⟩, some 120⟩ : ParsedEvent)
        82800000
        (submitEndDate (⟨⟨some "offsite", some 82800000, none, true⟩, some 120⟩ : ParsedEvent)
          82800000 .nan) ["a@b.c"] =
      .allDayBody "offsite" (isoDayOf 82800000)
        (isoDayOf (submitEndDate
          (⟨⟨some "offsite", some 82800000, none, true⟩, some 120⟩ : ParsedEvent) 82800000 .nan))
        ["a@b.c"] :=
  c8_amended _ .nan 82800000 "offsite" ["a@b.c"] (by decide) (by decide) (by decide) (by decide)

/-! ## Claim C9: caller state on collaborator failure -/

/-- Claim C9: when the calendar-write collaborator rejects, `onSubmit`'s catch
branch only surfaces a toast — the input text, guest search, guest selection
and the parsed resolved event are all left untouched, so the user can retry
with the same resolved event; they are cleared only after a successful
insert. -/
theorem c9_state_preserved_on_failure (sherlockParse : String → SherlockResult)
    (state : UIState) (inputVal : String) :
    onSubmitStep sherlockParse state inputVal .insertError = state ∧
    (∀ (s : Int) (t : String),
      (parseNaturalLanguage sherlockParse inputVal).startDate = some s →
      (parseNaturalLanguage sherlockParse inputVal).eventTitle = some t → t ≠ "" →
      onSubmitStep sherlockParse state inputVal .ok = ⟨"", "", [], emptyParsed⟩) := by
  constructor
  · unfold onSubmitStep
    cases h : (parseNaturalLanguage sherlockParse inputVal).startDate with
    | none => rfl
    | some s =>
      dsimp only
      split <;> rfl
  · intro s t hs ht hne
    unfold onSubmitStep
    rw [hs, ht]
    simp [strTruthy, hne]

/-- Witness for C9: a concrete failing submission leaves the concrete state
unchanged, and the same submission succeeding clears it. -/
theorem c9_witness :
    onSubmitStep (fun _ => ⟨some "hi", some 0, none, false⟩)
        ⟨"say hi", "qu", ["a@b.c"], emptyParsed⟩ "say hi" .ok = ⟨"", "", [], emptyParsed⟩ :=
  (c9_state_preserved_on_failure _ _ _).2 0 "hi" (by decide) (by decide) (by decide)

/-! ## Claim C10: default-duration coercion -/

/-- Claim C10: a default-event-duration preference whose numeric coercion is 0
or NaN (as `Number` yields for the numeric 0, the empty string, or an absent
preference) is replaced by the hard-coded 30 in both the preview's and the
submission's copy of `Number(preferences.defaultEventDuration) || 30`, making
the tier-3 end strictly later than the start; a negative coercion is truthy
and is used as-is by both sites. -/
theorem c10_default_duration_coercion (pref : JSNum) (e : ParsedEvent) (s : Int)
    (hs : e.startDate = some s) (hday : e.isAllDay = false)
    (hend : e.endDate = none) (hdur : e.durationMinutes = none) :
    ((pref = .nan ∨ pref = .num 0) →
      previewDefaultDuration pref = 30 ∧ submitDefaultDuration pref = 30 ∧
      submitEndDate e s pref = s + 30 * 60 * 1000 ∧
      formatPreviewEnd e pref = some (s + 30 * 60 * 1000, .fromDefault, " (30min default)") ∧
      s < submitEndDate e s pref) ∧
    (∀ v : Int, v < 0 →
      previewDefaultDuration (.num v) = v ∧ submitDefaultDuration (.num v) = v ∧
      submitEndDate e s (.num v) = s + v * 60 * 1000) := by
  constructor
  · intro hp
    have hprev : previewDefaultDuration pref = 30 := by
      rcases hp with h | h <;> subst h <;> rfl
    have hsubm : submitDefaultDuration pref = 30 := by
      rcases hp with h | h <;> subst h <;> rfl
    have hendv : submitEndDate e s pref = s + 30 * 60 * 1000 := by
      unfold submitEndDate
      rw [hend, hdur]
      simp [numTruthy, hsubm]
    refine ⟨hprev, hsubm, hendv, ?_, ?_⟩
    · unfold formatPreviewEnd
      rw [hs, hday, hend, hdur]
      simp [numTruthy, hprev]
      rfl
    · rw [hendv]; omega
  · intro v hv
    have hveq : (if v = 0 then (30:Int) else v) = v := by
      have : v ≠ 0 := by omega
      simp [this]
    refine ⟨hveq, hveq, ?_⟩
    unfold submitEndDate
    rw [hend, hdur]
    simp [numTruthy, submitDefaultDuration, hveq]

/-- Witness for C10 with a preference that coerces to NaN and another that is
negative, at a concrete tier-3 event. -/
theorem c10_witness :
    (previewDefaultDuration .nan = 30 ∧ submitDefaultDuration .nan = 30 ∧
      submitEndDate (⟨⟨some "t", some 7, none, false⟩, none⟩ : ParsedEvent) 7 .nan
        = 7 + 30 * 60 * 1000 ∧
      formatPreviewEnd (⟨⟨some "t", some 7, none, false⟩, none⟩ : ParsedEvent) .nan
        = some (7 + 30 * 60 * 1000, .fromDefault, " (30min default)") ∧
      (7:Int) < submitEndDate (⟨⟨some "t", some 7, none, false⟩, none⟩ : ParsedEvent) 7 .nan) ∧
    (previewDefaultDuration (.num (-15)) = -15 ∧ submitDefaultDuration (.num (-15)) = -15 ∧
      submitEndDate (⟨⟨some "t", some 7, none, false⟩, none⟩ : ParsedEvent) 7 (.num (-15))
        = 7 + (-15) * 60 * 1000) :=
  ⟨(c10_default_duration_coercion .nan _ 7 rfl rfl rfl rfl).1 (Or.inl rfl),
   (c10_default_duration_coercion (.num (-15)) _ 7 rfl rfl rfl rfl).2 (-15) (by omega)⟩

end GCalNLP
